import Mathlib

/-!
Shallow embedding of `src/loader_hub/web/readability_web/base.py`
(`ReadabilityWebPageReader`) together with the parts of the shipped
Readability.js extraction algorithm that the repository uses but does not
keep under `src/` (those parts are modelled from the specification and are
marked as such in their doc comments).

The Python methods are modelled as pure functions.  Methods on the reader
object take the reader record and return it alongside their result, making
any mutation of the configuration fields explicit.  The external renderer
(playwright: `chromium.launch`, `page.goto`, `page.evaluate`) is passed in
as a function producing either a renderer error (an exception raised during
navigation) or the result of evaluating Readability's `parse()` — `none`
models the JavaScript `null` result, which playwright delivers to Python as
`None`.
-/

namespace ReadabilityWeb

/-- The article record produced by Readability.js `parse()` and consumed as a
`Dict` by `scrape_page` / `load_data` (see the docstring of `scrape_page`,
lines 113-124 of `base.py`). -/
structure Article where
  title : String
  content : String
  textContent : String
  length : Nat
  excerpt : String
  byline : String
  dir : String
  lang : String
  siteName : String
deriving Repr, DecidableEq

/-- Modelled from the spec: Readability.js ships with the repository but is
not under `src/`; §3 of the spec fixes "length (character count of
textContent)" for the Article it produces.  This constructor builds the
parse result with that invariant. -/
def readabilityArticle (title content textContent excerpt byline dir lang
    siteName : String) : Article :=
  { title := title
    content := content
    textContent := textContent
    length := textContent.length
    excerpt := excerpt
    byline := byline
    dir := dir
    lang := lang
    siteName := siteName }

/-- The metadata dictionary built in `load_data` (lines 81-89 of `base.py`):
the seven keys `title, length, excerpt, byline, dir, lang, siteName` copied
out of the article. -/
structure ExtraInfo where
  title : String
  length : Nat
  excerpt : String
  byline : String
  dir : String
  lang : String
  siteName : String
deriving Repr, DecidableEq

/-- `extra_info = {key: article[key] for key in [...]}` (lines 81-89). -/
def extraInfoOf (a : Article) : ExtraInfo :=
  { title := a.title
    length := a.length
    excerpt := a.excerpt
    byline := a.byline
    dir := a.dir
    lang := a.lang
    siteName := a.siteName }

/-- One output document: `Document(x, extra_info=extra_info)` (line 101). -/
structure Document where
  text : String
  extra_info : ExtraInfo
deriving Repr, DecidableEq

/-- The `proxy` entry of the playwright launch options:
`{"server": proxy}` (lines 56-58). -/
structure ProxySettings where
  server : String
deriving Repr, DecidableEq

/-- `self._launch_options` (lines 51-58): always carries `headless`, and a
`proxy` entry exactly when one was installed by `__init__`. -/
structure LaunchOptions where
  headless : Bool
  proxy : Option ProxySettings
deriving Repr, DecidableEq

/-- The `wait_until` literal accepted by `__init__` (lines 45-47). -/
inductive WaitUntil where
  | commit
  | domcontentloaded
  | load
  | networkidle
deriving Repr, DecidableEq

/-- The configuration state a `ReadabilityWebPageReader` instance holds
after `__init__` (lines 51-60): `_launch_options`, `_wait_until`,
`_text_splitter`, `_normalize`.  A text splitter is used only through
`split_text : str -> List[str]` and a normalizer through call
`str -> str`, so both are modelled as functions. -/
structure ReadabilityWebPageReader where
  launch_options : LaunchOptions
  wait_until : Option WaitUntil
  text_splitter : Option (String → List String)
  normalize : Option (String → String)

/-- Python truthiness of an `Optional[str]`: `None` and `""` are falsy,
every other string is truthy (`if proxy:` at line 55). -/
def pyTruthyStr : Option String → Bool
  | none => false
  | some s => !(s == "")

/-- `nfkc_normalize` (lines 26-27) calls `unicodedata.normalize('NFKC', text)`
from Python's standard library.  That library function is external to the
repository, so it is taken as the parameter `unicodedataNFKC`. -/
def nfkc_normalize (unicodedataNFKC : String → String) (text : String) :
    String :=
  unicodedataNFKC text

/-- `ReadabilityWebPageReader.__init__` (lines 45-60): builds
`_launch_options` with `headless: True`, adds a `proxy` entry only when
`proxy` is truthy, and stores `wait_until`, `text_splitter`, `normalize`. -/
def ReadabilityWebPageReader.init (proxy : Option String)
    (wait_until : Option WaitUntil)
    (text_splitter : Option (String → List String))
    (normalize : Option (String → String)) : ReadabilityWebPageReader :=
  { launch_options :=
      { headless := true
        proxy :=
          if pyTruthyStr proxy then
            some { server := proxy.getD "" }
          else
            none }
    wait_until := wait_until
    text_splitter := text_splitter
    normalize := normalize }

/-- Calling the constructor with every argument left at its default
(`proxy=None`, `wait_until="domcontentloaded"`, `text_splitter=None`,
`normalize=nfkc_normalize`). -/
def ReadabilityWebPageReader.initDefault (unicodedataNFKC : String → String) :
    ReadabilityWebPageReader :=
  ReadabilityWebPageReader.init none (some WaitUntil.domcontentloaded) none
    (some (nfkc_normalize unicodedataNFKC))

/-- An error raised by the renderer while loading the page
(`page.goto` at line 131): navigation timeout or network failure.
The message captures the identity of the concrete Python exception. -/
inductive RendererError where
  | navigationTimeout (msg : String)
  | networkFailure (msg : String)
deriving Repr, DecidableEq

/-- The ways a `load_data` call can fail to return documents:
a renderer error propagating uncaught through `scrape_page` and
`load_data` (there is no `try`/`except` anywhere in `base.py`); the
`TypeError` Python raises at line 81 when `article` is `None` and the
dict comprehension subscripts it; and, for stating the spec's error
taxonomy (§7), the typed `NoContentFound` condition the spec describes. -/
inductive LoadFailure where
  | rendererError (e : RendererError)
  | noneTypeError
  | noContentFound
deriving Repr, DecidableEq

/-- What `chromium.launch(**self._launch_options)` followed by
`page.goto(url, wait_until=self._wait_until)` and
`page.evaluate(inject_readability)` delivers: either a navigation error or
Readability's parse result (`none` for the JavaScript `null`). -/
def Chromium : Type :=
  LaunchOptions → Option WaitUntil → String → Except RendererError (Option Article)

/-- `scrape_page` (lines 103-137): opens a page, navigates with
`wait_until=self._wait_until` (any exception propagates — there is no
handler), evaluates Readability and returns the result `r` unchanged.
The reader is returned alongside to make mutation of `self` explicit:
the method performs none. -/
def scrape_page (self : ReadabilityWebPageReader)
    (browser : Option WaitUntil → String → Except RendererError (Option Article))
    (url : String) :
    ReadabilityWebPageReader × Except RendererError (Option Article) :=
  (self, browser self.wait_until url)

/-- `self._normalize` applied as in lines 91-92: only when it is not `None`. -/
def applyNormalize : Option (String → String) → String → String
  | some f, t => f t
  | none, t => t

/-- `texts` as computed in lines 93-97: `split_text` when a splitter is
configured, else the singleton list. -/
def applySplit : Option (String → List String) → String → List String
  | some f, t => f t
  | none, t => [t]

/-- `load_data` (lines 62-101): launch the browser from
`self._launch_options`, scrape the page, build `extra_info` from the
article (lines 81-89, before normalization), normalize `textContent` when a
normalizer is configured (lines 91-92), split it (lines 93-97), and return
one `Document` per text chunk (line 101).  A renderer error from
`scrape_page` propagates; a `None` article makes the dict comprehension at
line 81 raise `TypeError`. -/
def load_data (self : ReadabilityWebPageReader) (chromium : Chromium)
    (url : String) :
    ReadabilityWebPageReader × Except LoadFailure (List Document) :=
  let browser := chromium self.launch_options
  match scrape_page self browser url with
  | (self1, Except.error e) => (self1, Except.error (LoadFailure.rendererError e))
  | (self1, Except.ok none) => (self1, Except.error LoadFailure.noneTypeError)
  | (self1, Except.ok (some article)) =>
    let extra_info := extraInfoOf article
    let textContent := applyNormalize self1.normalize article.textContent
    let texts := applySplit self1.text_splitter textContent
    (self1, Except.ok (texts.map fun x => { text := x, extra_info := extra_info }))

/-- Modelled from the spec: the candidate-ranking step of Readability.js
(shipped with the repository but not under `src/`).  §4.1 step 3: link
density is "the ratio of anchor-text length to total text length" of a
candidate subtree (0 for an empty subtree). -/
def linkDensity (anchorLen totalLen : Nat) : ℚ :=
  if totalLen = 0 then 0 else (anchorLen : ℚ) / (totalLen : ℚ)

/-- Modelled from the spec: §4.1 step 3, "candidates with high link density
are penalized multiplicatively" — the raw content score is scaled down by
the link density. -/
def adjustedScore (contentScore : ℚ) (anchorLen totalLen : Nat) : ℚ :=
  contentScore * (1 - linkDensity anchorLen totalLen)

/-- Helper: the value of `load_data` when the renderer succeeds and
Readability produced an article. -/
theorem load_data_ok_eq (self : ReadabilityWebPageReader) (chromium : Chromium)
    (url : String) (article : Article)
    (hp : chromium self.launch_options self.wait_until url =
      Except.ok (some article)) :
    load_data self chromium url =
      (self, Except.ok
        ((applySplit self.text_splitter
            (applyNormalize self.normalize article.textContent)).map
          fun x => { text := x, extra_info := extraInfoOf article })) := by
  simp only [load_data, scrape_page, hp]

/-! ### C1: the length field versus the delivered textContent -/

/-- A reader configured with a normalizer that changes the character count
(a legitimate `Callable[[str], str]` per the constructor signature). -/
def c1Reader : ReadabilityWebPageReader :=
  ReadabilityWebPageReader.init none (some WaitUntil.domcontentloaded) none
    (some (fun s => s ++ s))

/-- A parse result with one-character textContent, carrying Readability's
own length invariant (`length = 1`). -/
def c1Article : Article :=
  readabilityArticle "t" "<p>x</p>" "x" "e" "b" "ltr" "en" "s"

/-- A renderer whose scrape succeeds and yields `c1Article`. -/
def c1Chromium : Chromium := fun _ _ _ => Except.ok (some c1Article)

/-- C1, counterexample: `load_data` builds `extra_info` (lines 81-89 of
`base.py`) before applying the normalizer (lines 91-92), so the delivered
document has text `"xx"` (2 characters) while `extra_info` still records
`length = 1` — the length field does not equal the character count of the
textContent at the time the documents are built. -/
theorem c1_counterexample :
    (load_data c1Reader c1Chromium "http://e").2 =
      Except.ok
        [{ text := "xx",
           extra_info := { title := "t", length := 1, excerpt := "e",
                           byline := "b", dir := "ltr", lang := "en",
                           siteName := "s" } }] ∧
    "xx".length ≠ 1 :=
  ⟨rfl, by decide⟩

/-- C1 (amended): for every successful extraction, the `length` carried in
each delivered document's `extra_info` equals the character count of the
article's textContent as extracted — before the configured normalizer is
applied — because `load_data` copies the metadata out of the article before
it normalizes the text. -/
theorem load_data_length_is_preNormalization_count
    (self : ReadabilityWebPageReader) (chromium : Chromium) (url : String)
    (t c tc e b d l s : String)
    (hp : chromium self.launch_options self.wait_until url =
      Except.ok (some (readabilityArticle t c tc e b d l s))) :
    ∃ docs, (load_data self chromium url).2 = Except.ok docs ∧
      ∀ doc ∈ docs, doc.extra_info.length = tc.length := by
  rw [load_data_ok_eq self chromium url _ hp]
  refine ⟨_, rfl, ?_⟩
  intro doc hdoc
  rw [List.mem_map] at hdoc
  obtain ⟨x, _, hx⟩ := hdoc
  rw [← hx]
  rfl

/-- C1 witness: the amended statement at the concrete inputs of the
counterexample. -/
theorem load_data_length_is_preNormalization_count_witness :
    ∃ docs, (load_data c1Reader c1Chromium "http://e").2 = Except.ok docs ∧
      ∀ doc ∈ docs, doc.extra_info.length = "x".length :=
  load_data_length_is_preNormalization_count c1Reader c1Chromium "http://e"
    "t" "<p>x</p>" "x" "e" "b" "ltr" "en" "s" rfl

/-! ### C2: failure mode when Readability finds no content -/

/-- The reader with all constructor defaults (the NFKC collaborator
instantiated with a concrete function). -/
def c2Reader : ReadabilityWebPageReader :=
  ReadabilityWebPageReader.initDefault id

/-- A renderer whose navigation succeeds but whose Readability parse finds
no qualifying content: `parse()` returns null, delivered as None. -/
def c2Chromium : Chromium := fun _ _ _ => Except.ok none

/-- C2, counterexample: on a page with no qualifying content the caller of
`load_data` does not receive a typed NoContentFound result — the call dies
with the TypeError raised when the dict comprehension at line 81 subscripts
the None article. -/
theorem c2_counterexample :
    (load_data c2Reader c2Chromium "http://e").2 =
      Except.error LoadFailure.noneTypeError ∧
    (load_data c2Reader c2Chromium "http://e").2 ≠
      Except.error LoadFailure.noContentFound := by
  have heq : (load_data c2Reader c2Chromium "http://e").2 =
      Except.error LoadFailure.noneTypeError := rfl
  refine ⟨heq, ?_⟩
  rw [heq]
  intro h
  injection h with h'
  exact LoadFailure.noConfusion h'

/-- C2 (amended): when Readability's parse yields no article, `load_data`
fails — it returns no document list, so no partial or empty article reaches
the caller — but the failure is the untyped TypeError from subscripting the
None parse result at line 81, not an explicit typed NoContentFound
result. -/
theorem load_data_none_raises_typeError
    (self : ReadabilityWebPageReader) (chromium : Chromium) (url : String)
    (hp : chromium self.launch_options self.wait_until url = Except.ok none) :
    (load_data self chromium url).2 = Except.error LoadFailure.noneTypeError ∧
    (load_data self chromium url).2 ≠ Except.error LoadFailure.noContentFound ∧
    ∀ docs, (load_data self chromium url).2 ≠ Except.ok docs := by
  have h : (load_data self chromium url).2 =
      Except.error LoadFailure.noneTypeError := by
    simp only [load_data, scrape_page, hp]
  refine ⟨h, ?_, ?_⟩
  · rw [h]
    intro hcontra
    injection hcontra with h'
    exact LoadFailure.noConfusion h'
  · intro docs hcontra
    rw [h] at hcontra
    exact Except.noConfusion hcontra

/-- C2 witness: the amended statement at the concrete no-content input. -/
theorem load_data_none_raises_typeError_witness :
    (load_data c2Reader c2Chromium "u").2 =
      Except.error LoadFailure.noneTypeError ∧
    (load_data c2Reader c2Chromium "u").2 ≠
      Except.error LoadFailure.noContentFound ∧
    ∀ docs, (load_data c2Reader c2Chromium "u").2 ≠ Except.ok docs :=
  load_data_none_raises_typeError c2Reader c2Chromium "u" rfl

/-! ### C3: one document per splitter chunk, shared metadata -/

/-- C3: with a text splitter configured, a successful `load_data` returns
exactly one document per chunk produced by the splitter, in the splitter's
order, and every document carries the same `extra_info` — the seven
metadata fields (title, length, excerpt, byline, dir, lang, siteName)
copied from that article. -/
theorem load_data_one_document_per_chunk
    (self : ReadabilityWebPageReader) (split : String → List String)
    (hs : self.text_splitter = some split)
    (chromium : Chromium) (url : String) (article : Article)
    (hp : chromium self.launch_options self.wait_until url =
      Except.ok (some article)) :
    (load_data self chromium url).2 =
      Except.ok
        ((split (applyNormalize self.normalize article.textContent)).map
          fun x => { text := x, extra_info := extraInfoOf article }) := by
  rw [load_data_ok_eq self chromium url article hp]
  simp only [applySplit, hs]

/-- A two-chunk splitter for the C3 witness. -/
def c3Split (s : String) : List String := [s.take 1, s.drop 1]

/-- A reader configured with `c3Split` and no normalizer. -/
def c3Reader : ReadabilityWebPageReader :=
  ReadabilityWebPageReader.init none (some WaitUntil.load) (some c3Split) none

/-- A concrete successful parse result for the C3 witness. -/
def c3Article : Article :=
  readabilityArticle "T" "<p>ab</p>" "ab" "E" "B" "ltr" "en" "S"

/-- A renderer delivering `c3Article`. -/
def c3Chromium : Chromium := fun _ _ _ => Except.ok (some c3Article)

/-- C3 witness: the theorem at a concrete two-chunk split. -/
theorem load_data_one_document_per_chunk_witness :
    (load_data c3Reader c3Chromium "u").2 =
      Except.ok
        ((c3Split (applyNormalize c3Reader.normalize c3Article.textContent)).map
          fun x => { text := x, extra_info := extraInfoOf c3Article }) :=
  load_data_one_document_per_chunk c3Reader c3Split rfl c3Chromium "u"
    c3Article rfl

/-! ### C4: the normalizer -/

/-- C4: when a normalizer is configured it is applied to the article's
textContent exactly once, after extraction and before splitting, so the
splitter (or the singleton fallback) operates on the normalized text; when
it is `None` the textContent passes through unmodified; and the
constructor's default normalizer is `nfkc_normalize` (Unicode NFKC, via
`unicodedata.normalize('NFKC', ...)`). -/
theorem load_data_normalizer_application
    (unicodedataNFKC : String → String)
    (self : ReadabilityWebPageReader) (chromium : Chromium) (url : String)
    (article : Article)
    (hp : chromium self.launch_options self.wait_until url =
      Except.ok (some article)) :
    (∀ f, self.normalize = some f →
      (load_data self chromium url).2 =
        Except.ok
          ((applySplit self.text_splitter (f article.textContent)).map
            fun x => { text := x, extra_info := extraInfoOf article })) ∧
    (self.normalize = none →
      (load_data self chromium url).2 =
        Except.ok
          ((applySplit self.text_splitter article.textContent).map
            fun x => { text := x, extra_info := extraInfoOf article })) ∧
    (ReadabilityWebPageReader.initDefault unicodedataNFKC).normalize =
      some (nfkc_normalize unicodedataNFKC) := by
  refine ⟨?_, ?_, rfl⟩
  · intro f hf
    rw [load_data_ok_eq self chromium url article hp]
    simp only [hf, applyNormalize]
  · intro hf
    rw [load_data_ok_eq self chromium url article hp]
    simp only [hf, applyNormalize]

/-- A normalizer for the C4 witness. -/
def c4Norm (s : String) : String := "n" ++ s

/-- A reader configured with `c4Norm` and no splitter. -/
def c4Reader : ReadabilityWebPageReader :=
  ReadabilityWebPageReader.init none (some WaitUntil.commit) none
    (some c4Norm)

/-- C4 witness: the normalized-branch consequence at a concrete reader,
plus the default-normalizer equation. -/
theorem load_data_normalizer_application_witness :
    (load_data c4Reader c3Chromium "u").2 =
      Except.ok
        ((applySplit c4Reader.text_splitter (c4Norm c3Article.textContent)).map
          fun x => { text := x, extra_info := extraInfoOf c3Article }) ∧
    (ReadabilityWebPageReader.initDefault id).normalize =
      some (nfkc_normalize id) :=
  ⟨(load_data_normalizer_application id c4Reader c3Chromium "u" c3Article
      rfl).1 c4Norm rfl,
   (load_data_normalizer_application id c4Reader c3Chromium "u" c3Article
      rfl).2.2⟩

/-! ### C5: determinism of the post-extraction pipeline -/

/-- C5: the pipeline is a pure function of the configuration and the scrape
outcome — two readers whose four configuration fields are equal produce
identical results on the same renderer and url, so running it twice yields
byte-identical documents in the same order. -/
theorem load_data_deterministic
    (r1 r2 : ReadabilityWebPageReader)
    (h1 : r1.launch_options = r2.launch_options)
    (h2 : r1.wait_until = r2.wait_until)
    (h3 : r1.text_splitter = r2.text_splitter)
    (h4 : r1.normalize = r2.normalize)
    (chromium : Chromium) (url : String) :
    (load_data r1 chromium url).2 = (load_data r2 chromium url).2 := by
  have h : r1 = r2 := by
    cases r1
    cases r2
    simp_all
  rw [h]

/-- C5 witness: two syntactically distinct but field-equal readers give the
same output on a concrete scrape. -/
theorem load_data_deterministic_witness :
    (load_data c3Reader c3Chromium "u").2 =
      (load_data
        (ReadabilityWebPageReader.init none (some WaitUntil.load)
          (some c3Split) none) c3Chromium "u").2 :=
  load_data_deterministic c3Reader
    (ReadabilityWebPageReader.init none (some WaitUntil.load)
      (some c3Split) none) rfl rfl rfl rfl c3Chromium "u"

/-! ### C6: the reader is stateless between calls -/

/-- C6: neither `load_data` nor `scrape_page` modifies the reader's
configuration — after any call every configuration field
(`_launch_options`, `_wait_until`, `_text_splitter`, `_normalize`) equals
its value from construction. -/
theorem reader_stateless
    (self : ReadabilityWebPageReader) (chromium : Chromium)
    (browser : Option WaitUntil → String → Except RendererError (Option Article))
    (url : String) :
    (load_data self chromium url).1.launch_options = self.launch_options ∧
    (load_data self chromium url).1.wait_until = self.wait_until ∧
    (load_data self chromium url).1.text_splitter = self.text_splitter ∧
    (load_data self chromium url).1.normalize = self.normalize ∧
    (scrape_page self browser url).1 = self := by
  have h : (load_data self chromium url).1 = self := by
    simp only [load_data, scrape_page]
    rcases chromium self.launch_options self.wait_until url with e | a
    · rfl
    · rcases a with _ | article <;> rfl
  exact ⟨by rw [h], by rw [h], by rw [h], by rw [h], rfl⟩

/-! ### C7: renderer errors propagate uncaught -/

/-- C7: an error raised during page navigation is never caught or
translated — `scrape_page` returns it untouched, `load_data` surfaces the
very same error value to its caller, and no document list is produced. -/
theorem renderer_errors_propagate
    (self : ReadabilityWebPageReader) (chromium : Chromium) (url : String)
    (e : RendererError)
    (hp : chromium self.launch_options self.wait_until url = Except.error e) :
    (scrape_page self (chromium self.launch_options) url).2 =
      Except.error e ∧
    (load_data self chromium url).2 =
      Except.error (LoadFailure.rendererError e) ∧
    ∀ docs, (load_data self chromium url).2 ≠ Except.ok docs := by
  have h : (load_data self chromium url).2 =
      Except.error (LoadFailure.rendererError e) := by
    simp only [load_data, scrape_page, hp]
  refine ⟨?_, h, ?_⟩
  · simp only [scrape_page, hp]
  · intro docs hcontra
    rw [h] at hcontra
    exact Except.noConfusion hcontra

/-- A renderer that fails with a navigation timeout. -/
def c7Chromium : Chromium :=
  fun _ _ _ => Except.error (RendererError.navigationTimeout "Timeout 60000ms exceeded")

/-- C7 witness: the propagation statement at a concrete timeout error. -/
theorem renderer_errors_propagate_witness :
    (scrape_page c2Reader (c7Chromium c2Reader.launch_options) "u").2 =
      Except.error (RendererError.navigationTimeout "Timeout 60000ms exceeded") ∧
    (load_data c2Reader c7Chromium "u").2 =
      Except.error (LoadFailure.rendererError
        (RendererError.navigationTimeout "Timeout 60000ms exceeded")) ∧
    ∀ docs, (load_data c2Reader c7Chromium "u").2 ≠ Except.ok docs :=
  renderer_errors_propagate c2Reader c7Chromium "u"
    (RendererError.navigationTimeout "Timeout 60000ms exceeded") rfl

/-! ### C8: monotone multiplicative link-density penalty -/

/-- C8, counterexample: a candidate's accumulated raw score may be negative
(§4.1 step 2 admits tag-type weights and penalty-pattern matches), and for
a negative score the multiplicative penalty acts in reverse — with raw
score -1, the anchor-free candidate (density 0) scores -1 while the same
candidate extended by one anchor character (density 1/2) scores -1/2: the
candidate with the higher link density receives a strictly higher adjusted
score. -/
theorem c8_counterexample :
    linkDensity 0 1 < linkDensity (0 + 1) (1 + 1) ∧
    adjustedScore (-1) 0 1 < adjustedScore (-1) (0 + 1) (1 + 1) := by
  constructor <;> norm_num [linkDensity, adjustedScore]

/-- C8 (amended): for candidates whose raw content score is nonnegative,
adding anchor-heavy content (which adds the same amount to the anchor-text
length and the total text length) never decreases link density and never
increases the adjusted score — the multiplicative penalty is monotone
exactly on nonnegative scores; for negative scores it raises the adjusted
score instead. -/
theorem linkDensity_penalty_monotone
    (score : ℚ) (hscore : 0 ≤ score) (a t extra : ℕ) (hat : a ≤ t) :
    linkDensity a t ≤ linkDensity (a + extra) (t + extra) ∧
    adjustedScore score (a + extra) (t + extra) ≤ adjustedScore score a t := by
  have hd : linkDensity a t ≤ linkDensity (a + extra) (t + extra) := by
    unfold linkDensity
    rcases Nat.eq_zero_or_pos t with ht | ht
    · subst ht
      have ha : a = 0 := Nat.le_zero.mp hat
      subst ha
      rcases Nat.eq_zero_or_pos extra with he | he
      · subst he
        simp
      · have hne : (0 + extra) ≠ 0 := by omega
        rw [if_pos rfl, if_neg hne]
        positivity
    · have ht1 : t ≠ 0 := Nat.pos_iff_ne_zero.mp ht
      have ht2 : t + extra ≠ 0 := by omega
      rw [if_neg ht1, if_neg ht2]
      rw [div_le_div_iff₀ (by exact_mod_cast ht)
        (by exact_mod_cast Nat.add_pos_left ht extra)]
      push_cast
      nlinarith [mul_le_mul_of_nonneg_right
        (show (a : ℚ) ≤ (t : ℚ) from by exact_mod_cast hat)
        (show (0 : ℚ) ≤ (extra : ℚ) from Nat.cast_nonneg extra)]
  refine ⟨hd, ?_⟩
  unfold adjustedScore
  apply mul_le_mul_of_nonneg_left _ hscore
  linarith [hd]

/-- C8 witness: concrete candidates — anchor 1 of 2 characters versus the
same candidate with 3 added anchor characters (anchor 4 of 5), raw score
5. -/
theorem linkDensity_penalty_monotone_witness :
    linkDensity 1 2 ≤ linkDensity (1 + 3) (2 + 3) ∧
    adjustedScore 5 (1 + 3) (2 + 3) ≤ adjustedScore 5 1 2 :=
  linkDensity_penalty_monotone 5 (by norm_num) 1 2 3 (by norm_num)

/-! ### C9: no splitter configured -/

/-- C9: when no text splitter is configured, `load_data` returns exactly
one document, whose text is the article's full textContent after the
configured normalizer (if any) has been applied. -/
theorem load_data_no_splitter_single_document
    (self : ReadabilityWebPageReader)
    (hs : self.text_splitter = none)
    (chromium : Chromium) (url : String) (article : Article)
    (hp : chromium self.launch_options self.wait_until url =
      Except.ok (some article)) :
    (load_data self chromium url).2 =
      Except.ok
        [{ text := applyNormalize self.normalize article.textContent,
           extra_info := extraInfoOf article }] := by
  rw [load_data_ok_eq self chromium url article hp]
  simp only [hs, applySplit, List.map_cons, List.map_nil]

/-- C9 witness: the default-configured reader (no splitter) on a concrete
article yields the single full-text document. -/
theorem load_data_no_splitter_single_document_witness :
    (load_data c2Reader c1Chromium "u").2 =
      Except.ok
        [{ text := applyNormalize c2Reader.normalize c1Article.textContent,
           extra_info := extraInfoOf c1Article }] :=
  load_data_no_splitter_single_document c2Reader rfl c1Chromium "u"
    c1Article rfl

/-! ### C10: proxy truthiness in the constructor -/

/-- C10: the constructor installs a proxy entry only for truthy proxy
arguments — `None` and `""` yield launch options with no proxy entry, any
non-empty proxy string yields launch options whose proxy server is that
string, and `headless` is set in every case. -/
theorem init_proxy_configuration
    (wait_until : Option WaitUntil)
    (text_splitter : Option (String → List String))
    (normalize : Option (String → String)) :
    (ReadabilityWebPageReader.init none wait_until text_splitter
        normalize).launch_options =
      { headless := true, proxy := none } ∧
    (ReadabilityWebPageReader.init (some "") wait_until text_splitter
        normalize).launch_options =
      { headless := true, proxy := none } ∧
    ∀ s : String, s ≠ "" →
      (ReadabilityWebPageReader.init (some s) wait_until text_splitter
          normalize).launch_options =
        { headless := true, proxy := some { server := s } } := by
  refine ⟨rfl, rfl, ?_⟩
  intro s hs
  have ht : pyTruthyStr (some s) = true := by
    simp [pyTruthyStr, hs]
  simp [ReadabilityWebPageReader.init, ht]

/-- C10 witness: a concrete non-empty proxy string installs the proxy
entry. -/
theorem init_proxy_configuration_witness :
    (ReadabilityWebPageReader.init (some "http://proxyhost:8080")
        (some WaitUntil.networkidle) none none).launch_options =
      { headless := true,
        proxy := some { server := "http://proxyhost:8080" } } :=
  (init_proxy_configuration (some WaitUntil.networkidle) none none).2.2
    "http://proxyhost:8080" (by decide)

end ReadabilityWeb
